import Mathlib

/-!
Verification of the dynamic private-API brightness controller of mac-cli
(src/brightness.rs, src/main.rs), as a shallow embedding.

Modelling choices:
- Rust `f32` is modelled by `F32`: either NaN or an exact rational value.
  The brightness code performs no floating-point arithmetic on the values
  it validates — only order comparisons against the exactly representable
  constants 0.0, 1.0, 10.0, 100.0 and pass-through — so the rational model
  is faithful for every comparison the claims depend on.  IEEE comparison
  semantics (NaN compares false under <, ≤, ==, >) are reproduced.
- The foreign world (CGGetActiveDisplayList, dlopen, dlsym, dlclose and
  the two resolved DisplayServices symbols) is an explicit environment
  `Env`; null pointers are `Option.none`, and the RTLD_DEFAULT sentinel
  scope is the `none` scope of `dlsymOk`.
- Each operation is instrumented: alongside its `Except` result it returns
  the list of foreign calls it performed, in order, so that "no foreign
  call is made" and "invokes the setter exactly once" are statable.
-/

/-- Model of a Rust `f32`: NaN, or an exact rational value. -/
inductive F32 where
  | nan : F32
  | val : ℚ → F32
deriving DecidableEq, Repr

/-- IEEE `<=` on f32: false whenever either side is NaN. -/
def F32.fle : F32 → F32 → Bool
  | .val a, .val b => decide (a ≤ b)
  | _, _ => false

/-- IEEE `<` on f32: false whenever either side is NaN. -/
def F32.flt : F32 → F32 → Bool
  | .val a, .val b => decide (a < b)
  | _, _ => false

/-- IEEE `>` on f32. -/
def F32.fgt (a b : F32) : Bool := F32.flt b a

/-- IEEE `==` on f32: false whenever either side is NaN. -/
def F32.feq : F32 → F32 → Bool
  | .val a, .val b => decide (a = b)
  | _, _ => false

/-- Division by 100.0 as used in `handle_brightness` (`pct / 100.0`).
Modelled exactly; no claim depends on the rounded quotient value. -/
def F32.div100 : F32 → F32
  | .nan => .nan
  | .val q => .val (q / 100)

/-- The candidate framework paths of `BrightnessController::new`, in order. -/
def dsPath : String :=
  "/System/Library/PrivateFrameworks/DisplayServices.framework/DisplayServices"

/-- Second candidate framework path. -/
def slPath : String :=
  "/System/Library/PrivateFrameworks/SkyLight.framework/SkyLight"

/-- `framework_paths` from `BrightnessController::new`. -/
def framework_paths : List String := [dsPath, slPath]

/-- Symbol name of the brightness getter. -/
def get_brightness_name : String := "DisplayServicesGetBrightness"

/-- Symbol name of the brightness setter. -/
def set_brightness_name : String := "DisplayServicesSetBrightness"

/-- Foreign calls performed by construction and destruction.
`dlsymCall` records the scope used: `none` is the RTLD_DEFAULT sentinel
scope, `some h` an explicitly loaded library handle. -/
inductive Event where
  | enumCall : Event
  | dlopenCall : String → Event
  | dlsymCall : Option Nat → String → Event
  | dlcloseCall : Nat → Event
deriving DecidableEq, Repr

/-- The foreign world as seen by the controller: outcome of the display
enumeration call, of each `dlopen`, of `dlsym` per scope and symbol, and
the behaviour of the two resolved DisplayServices functions. -/
structure Env where
  enumStatus : Int
  enumDisplays : List Nat
  dlopenRes : String → Option Nat
  dlsymOk : Option Nat → String → Bool
  getImpl : Nat → Int × F32
  setImpl : Nat → F32 → Int

/-- `BrightnessController` (src/brightness.rs lines 20–25): display id,
owned library handle (`none` = null), and the two bound function pointers,
carried as their behaviours. -/
structure BrightnessController where
  display_id : Nat
  handle : Option Nat
  get_brightness_fn : Nat → Int × F32
  set_brightness_fn : Nat → F32 → Int

/-- The `for path in &framework_paths` loop: dlopen each path in order,
stop at the first non-null handle.  Returns the resulting handle (null if
every load failed) and the dlopen calls performed. -/
def tryLoad (env : Env) : List String → Option Nat × List Event
  | [] => (none, [])
  | p :: rest =>
    match env.dlopenRes p with
    | some h => (some h, [Event.dlopenCall p])
    | none =>
      let r := tryLoad env rest
      (r.1, Event.dlopenCall p :: r.2)

/-- `display_count` as written by `CGGetActiveDisplayList(16, …)`:
the number of identifiers filled into the 16-slot buffer. -/
def display_count (env : Env) : Nat := min env.enumDisplays.length 16

/-- The `displays: [CGDirectDisplayID; 16]` buffer after the enumeration
call: zero-initialised, the first `display_count` slots overwritten. -/
def displayBuffer (env : Env) : List Nat :=
  env.enumDisplays.take 16 ++ List.replicate (16 - env.enumDisplays.length) 0

/-- `search_handle`: the handle if one was loaded, RTLD_DEFAULT otherwise
(both the null handle and the RTLD_DEFAULT scope are `none` here, which is
exactly the branch at src/brightness.rs lines 58–62). -/
def searchScope : Option Nat → Option Nat
  | none => none
  | some h => some h

/-- `BrightnessController::new` (src/brightness.rs lines 28–89),
instrumented with the list of foreign calls it performs. -/
def BrightnessController.new (env : Env) :
    Except String BrightnessController × List Event :=
  if env.enumStatus ≠ 0 then
    (Except.error "Failed to get active displays", [Event.enumCall])
  else if display_count env = 0 then
    (Except.error "No active displays found", [Event.enumCall])
  else
    let load := tryLoad env framework_paths
    let handle := load.1
    let search_handle := searchScope handle
    let get_ok := env.dlsymOk search_handle get_brightness_name
    let set_ok := env.dlsymOk search_handle set_brightness_name
    let evs := Event.enumCall :: load.2 ++
      [Event.dlsymCall search_handle get_brightness_name,
       Event.dlsymCall search_handle set_brightness_name]
    if !get_ok || !set_ok then
      match handle with
      | some h =>
        (Except.error "DisplayServices functions not available on this system.",
         evs ++ [Event.dlcloseCall h])
      | none =>
        (Except.error "DisplayServices functions not available on this system.",
         evs)
    else
      (Except.ok
        { display_id := (displayBuffer env).headD 0
          handle := handle
          get_brightness_fn := env.getImpl
          set_brightness_fn := env.setImpl }, evs)

/-- `BrightnessController::get` (src/brightness.rs lines 91–102),
instrumented with the display ids the bound getter was invoked on.
The getter behaviour returns the status code and the final value of the
out-parameter. -/
def BrightnessController.get (c : BrightnessController) :
    Except String F32 × List Nat :=
  let r := c.get_brightness_fn c.display_id
  if r.1 ≠ 0 then
    (Except.error ("Failed to get brightness: error code " ++ toString r.1),
     [c.display_id])
  else
    (Except.ok r.2, [c.display_id])

/-- The validation `(0.0..=1.0).contains(&brightness)`:
`RangeInclusive::contains` is `0.0 <= b && b <= 1.0` under f32 order. -/
def contains01 (b : F32) : Bool :=
  F32.fle (F32.val 0) b && F32.fle b (F32.val 1)

/-- `BrightnessController::set` (src/brightness.rs lines 104–117),
instrumented with the (display id, value) arguments of each invocation of
the bound setter. -/
def BrightnessController.set (c : BrightnessController) (brightness : F32) :
    Except String Unit × List (Nat × F32) :=
  if !(contains01 brightness) then
    (Except.error "Brightness must be between 0.0 and 1.0", [])
  else
    let result := c.set_brightness_fn c.display_id brightness
    if result ≠ 0 then
      (Except.error ("Failed to set brightness: error code " ++ toString result),
       [(c.display_id, brightness)])
    else
      (Except.ok (), [(c.display_id, brightness)])

/-- `Drop for BrightnessController` (src/brightness.rs lines 120–128):
the dlclose calls performed by one run of the destructor. -/
def BrightnessController.dropEvents (c : BrightnessController) : List Event :=
  match c.handle with
  | some h => [Event.dlcloseCall h]
  | none => []

/-- Boolean success test for an `Except` result. -/
def exceptIsOk {ε α : Type} : Except ε α → Bool
  | .ok _ => true
  | .error _ => false

/-- CLI-level events of `handle_brightness`: construction of the
controller, and the foreign getter/setter invocations it triggers. -/
inductive CliEvent where
  | constructorCall : CliEvent
  | setCall : Nat → F32 → CliEvent
  | getCall : Nat → CliEvent
deriving DecidableEq, Repr

/-- `handle_brightness` (src/main.rs lines 104–125), instrumented.
The controller is constructed first (`BrightnessController::new()?`);
only then is a present percentage validated, and on success
`controller.set(pct / 100.0)` runs. -/
def handle_brightness (env : Env) (percentage : Option F32) :
    Except String Unit × List CliEvent :=
  match (BrightnessController.new env).1 with
  | Except.error e => (Except.error e, [CliEvent.constructorCall])
  | Except.ok controller =>
    match percentage with
    | some pct =>
      if F32.feq pct (F32.val 0) then
        (Except.error "Brightness cannot be 0", [CliEvent.constructorCall])
      else if F32.flt pct (F32.val 10) || F32.fgt pct (F32.val 100) then
        (Except.error "Brightness must be between 10 and 100",
         [CliEvent.constructorCall])
      else
        let r := controller.set (F32.div100 pct)
        (r.1,
         CliEvent.constructorCall ::
           r.2.map (fun dv => CliEvent.setCall dv.1 dv.2))
    | none =>
      let r := controller.get
      (r.1.map (fun _ => ()),
       CliEvent.constructorCall :: r.2.map CliEvent.getCall)

/-- An environment in which everything succeeds: one active display `1`,
the first framework path loads as handle `7`, both symbols resolve, the
getter reports brightness 0.73 with status 0, the setter returns 0. -/
def envOk : Env :=
  { enumStatus := 0
    enumDisplays := [1]
    dlopenRes := fun _ => some 7
    dlsymOk := fun _ _ => true
    getImpl := fun _ => (0, F32.val (73 / 100))
    setImpl := fun _ _ => 0 }

/-- A concrete bound controller whose setter always returns status 0. -/
def ctrlOk : BrightnessController :=
  { display_id := 1
    handle := some 7
    get_brightness_fn := fun _ => (0, F32.val (73 / 100))
    set_brightness_fn := fun _ _ => 0 }

/-- A concrete bound controller whose getter returns status 5 and whose
setter returns status 9. -/
def ctrlErr : BrightnessController :=
  { display_id := 2
    handle := none
    get_brightness_fn := fun _ => (5, F32.val 0)
    set_brightness_fn := fun _ _ => 9 }

/-- C1: for every input v with v < 0.0 or v > 1.0, `set(v)` returns the
out-of-range error "Brightness must be between 0.0 and 1.0" and performs
no call to the bound setter function pointer (empty call trace). -/
theorem set_rejects_out_of_range (c : BrightnessController) (v : F32)
    (hv : F32.flt v (F32.val 0) = true ∨ F32.fgt v (F32.val 1) = true) :
    c.set v = (Except.error "Brightness must be between 0.0 and 1.0", []) := by
  have hc : contains01 v = false := by
    cases v with
    | nan => rcases hv with h | h <;> simp [F32.flt, F32.fgt] at h
    | val q =>
      rcases hv with h | h <;>
        simp only [F32.flt, F32.fgt, decide_eq_true_eq] at h <;>
        simp only [contains01, F32.fle, Bool.and_eq_false_iff,
          decide_eq_false_iff_not, not_le] <;> [left; right] <;> linarith
  simp [BrightnessController.set, hc]

theorem set_rejects_out_of_range_witness :
    ctrlOk.set (F32.val 2) =
      (Except.error "Brightness must be between 0.0 and 1.0", []) :=
  set_rejects_out_of_range ctrlOk (F32.val 2) (Or.inr (by decide))

/-- C2: for every input v with 0.0 ≤ v ≤ 1.0, `set(v)` invokes the bound
setter exactly once, passing the display identifier and v unchanged; it
returns Ok(()) when the setter returns status 0, and the error carrying
the setter's status code when that code is non-zero. -/
theorem set_in_range (c : BrightnessController) (v : F32)
    (h0 : F32.fle (F32.val 0) v = true) (h1 : F32.fle v (F32.val 1) = true) :
    (c.set v).2 = [(c.display_id, v)] ∧
    (c.set_brightness_fn c.display_id v = 0 → (c.set v).1 = Except.ok ()) ∧
    (∀ code : Int, code ≠ 0 → c.set_brightness_fn c.display_id v = code →
      (c.set v).1 =
        Except.error ("Failed to set brightness: error code " ++ toString code)) := by
  have hc : contains01 v = true := by simp [contains01, h0, h1]
  have hnc : (!contains01 v) = false := by rw [hc]; rfl
  refine ⟨?_, ?_, ?_⟩
  · simp only [BrightnessController.set, hnc]
    rw [if_neg Bool.false_ne_true]
    split <;> rfl
  · intro hz
    simp [BrightnessController.set, hc, hz]
  · intro code hcz hcode
    simp [BrightnessController.set, hc, hcode, hcz]

theorem set_in_range_witness :
    (ctrlOk.set (F32.val (1 / 2))).2 = [(1, F32.val (1 / 2))] ∧
    (ctrlOk.set (F32.val (1 / 2))).1 = Except.ok () ∧
    (ctrlErr.set (F32.val (1 / 2))).1 =
      Except.error "Failed to set brightness: error code 9" :=
  ⟨(set_in_range ctrlOk (F32.val (1 / 2)) (by norm_num [F32.fle])
      (by norm_num [F32.fle])).1,
   (set_in_range ctrlOk (F32.val (1 / 2)) (by norm_num [F32.fle])
      (by norm_num [F32.fle])).2.1 rfl,
   (set_in_range ctrlErr (F32.val (1 / 2)) (by norm_num [F32.fle])
      (by norm_num [F32.fle])).2.2 9 (by decide) rfl⟩

/-- C6: `get()` invokes the bound getter once with the bound display
identifier; when the getter returns status 0 having written value b into
the out-parameter, `get()` returns exactly b without re-validation; when
the getter returns a non-zero status c, `get()` fails with the error
carrying c. -/
theorem get_behavior (c : BrightnessController) :
    (c.get).2 = [c.display_id] ∧
    (∀ b : F32, c.get_brightness_fn c.display_id = (0, b) →
      (c.get).1 = Except.ok b) ∧
    (∀ code : Int, ∀ b : F32, code ≠ 0 →
      c.get_brightness_fn c.display_id = (code, b) →
      (c.get).1 =
        Except.error ("Failed to get brightness: error code " ++ toString code)) := by
  refine ⟨?_, ?_, ?_⟩
  · simp only [BrightnessController.get]
    split <;> rfl
  · intro b hb
    simp [BrightnessController.get, hb]
  · intro code b hcz hb
    simp [BrightnessController.get, hb, hcz]

theorem get_behavior_witness :
    (ctrlOk.get).1 = Except.ok (F32.val (73 / 100)) ∧
    (ctrlErr.get).1 = Except.error "Failed to get brightness: error code 5" :=
  ⟨(get_behavior ctrlOk).2.1 (F32.val (73 / 100)) rfl,
   (get_behavior ctrlErr).2.2 5 (F32.val 0) (by decide) rfl⟩

/-- C10: a NaN input satisfies neither v < 0.0 nor v > 1.0, yet `set`
rejects it with the out-of-range error and no foreign call, because the
validation tests membership in the closed interval [0.0, 1.0] (which NaN
also fails) rather than the two exclusion inequalities. -/
theorem set_rejects_nan (c : BrightnessController) :
    F32.flt F32.nan (F32.val 0) = false ∧
    F32.fgt F32.nan (F32.val 1) = false ∧
    contains01 F32.nan = false ∧
    c.set F32.nan = (Except.error "Brightness must be between 0.0 and 1.0", []) := by
  refine ⟨rfl, rfl, rfl, ?_⟩
  simp [BrightnessController.set, contains01, F32.fle]

/-- An environment whose display-enumeration call fails with status 1. -/
def envEnumFail : Env :=
  { envOk with enumStatus := 1 }

/-- An environment whose enumeration succeeds but reports zero displays. -/
def envNoDisplays : Env :=
  { envOk with enumDisplays := [] }

/-- C5: construction short-circuits on enumeration failure.  A non-zero
enumeration status yields the platform-call-failed error; a successful
call reporting zero active displays yields the no-active-displays error;
in both cases the foreign-call trace is just the enumeration call, so no
library load (dlopen) and no symbol resolution (dlsym) is attempted. -/
theorem enumeration_short_circuit (env : Env) :
    (env.enumStatus ≠ 0 →
      BrightnessController.new env =
        (Except.error "Failed to get active displays", [Event.enumCall])) ∧
    (env.enumStatus = 0 → display_count env = 0 →
      BrightnessController.new env =
        (Except.error "No active displays found", [Event.enumCall])) := by
  constructor
  · intro h
    simp [BrightnessController.new, h]
  · intro h hz
    simp [BrightnessController.new, h, hz]

theorem enumeration_short_circuit_witness :
    BrightnessController.new envEnumFail =
      (Except.error "Failed to get active displays", [Event.enumCall]) ∧
    BrightnessController.new envNoDisplays =
      (Except.error "No active displays found", [Event.enumCall]) :=
  ⟨(enumeration_short_circuit envEnumFail).1 (by decide),
   (enumeration_short_circuit envNoDisplays).2 rfl rfl⟩

/-- C7: one run of the destructor releases an explicitly loaded handle
exactly once; when symbols came from the global default scope (no owned
handle), it releases nothing; and it never issues a dlclose on a handle it
does not own. -/
theorem drop_releases_once (c : BrightnessController) :
    (∀ h : Nat, c.handle = some h →
      c.dropEvents = [Event.dlcloseCall h]) ∧
    (c.handle = none → c.dropEvents = []) ∧
    (∀ h : Nat, Event.dlcloseCall h ∈ c.dropEvents → c.handle = some h) := by
  refine ⟨?_, ?_, ?_⟩
  · intro h hh
    simp [BrightnessController.dropEvents, hh]
  · intro hh
    simp [BrightnessController.dropEvents, hh]
  · intro h hmem
    cases hc : c.handle with
    | none => simp [BrightnessController.dropEvents, hc] at hmem
    | some g =>
      simp [BrightnessController.dropEvents, hc] at hmem
      simp [hc, hmem]

theorem drop_releases_once_witness :
    ctrlOk.dropEvents = [Event.dlcloseCall 7] ∧ ctrlErr.dropEvents = [] :=
  ⟨(drop_releases_once ctrlOk).1 7 rfl, (drop_releases_once ctrlErr).2.1 rfl⟩

/-- C9: when enumeration succeeds with n ≥ 1 active displays, the
constructed controller is bound to the first enumerated identifier
`displays[0]`, whatever the remaining identifiers are (they are ignored),
and the reported display count is positive, so index 0 is among the
filled slots of the buffer. -/
theorem binds_first_display (env : Env) (d : Nat) (rest : List Nat)
    (hd : env.enumDisplays = d :: rest) (c : BrightnessController)
    (hok : (BrightnessController.new env).1 = Except.ok c) :
    c.display_id = d ∧ 0 < display_count env := by
  have hcount : 0 < display_count env := by
    simp [display_count, hd]
  refine ⟨?_, hcount⟩
  by_cases hs : env.enumStatus = 0
  · rw [BrightnessController.new] at hok
    simp only [hs, ne_eq, not_true_eq_false, if_false, decide_not] at hok
    rw [if_neg (by omega)] at hok
    set load := tryLoad env framework_paths with hload
    by_cases hsym : (!env.dlsymOk (searchScope load.1) get_brightness_name ||
        !env.dlsymOk (searchScope load.1) set_brightness_name) = true
    · rw [if_pos hsym] at hok
      cases hh : load.1 with
      | some h => rw [hh] at hok; simp at hok
      | none => rw [hh] at hok; simp at hok
    · rw [if_neg hsym] at hok
      have hc : c = { display_id := (displayBuffer env).headD 0
                      handle := load.1
                      get_brightness_fn := env.getImpl
                      set_brightness_fn := env.setImpl } := by
        cases hok; rfl
      rw [hc]
      simp [displayBuffer, hd]
  · rw [BrightnessController.new] at hok
    simp [hs] at hok

/-- The controller value that `BrightnessController.new envOk` returns. -/
def ctrlFromEnvOk : BrightnessController :=
  { display_id := 1
    handle := some 7
    get_brightness_fn := envOk.getImpl
    set_brightness_fn := envOk.setImpl }

theorem binds_first_display_witness :
    ctrlFromEnvOk.display_id = 1 ∧ 0 < display_count envOk :=
  binds_first_display envOk 1 [] rfl ctrlFromEnvOk rfl

/-- The dlopen calls contained in a foreign-call trace, in order. -/
def dlopenPaths (evs : List Event) : List String :=
  evs.filterMap fun e =>
    match e with
    | Event.dlopenCall p => some p
    | _ => none

/-- The scopes of the dlsym calls contained in a foreign-call trace. -/
def dlsymScopes (evs : List Event) : List (Option Nat) :=
  evs.filterMap fun e =>
    match e with
    | Event.dlsymCall s _ => some s
    | _ => none

/-- An environment in which the first framework path fails to load and
the second loads as handle 9, with both symbols resolving. -/
def envSecondLoads : Env :=
  { envOk with
      dlopenRes := fun p => if p = slPath then some 9 else none }

/-- An environment in which no framework path loads but both symbols
resolve in the RTLD_DEFAULT scope. -/
def envFallback : Env :=
  { envOk with dlopenRes := fun _ => none }

/-- C3: the resolver tries the candidate paths in order and stops at the
first successful load — if the first candidate loads, the second is never
attempted and both symbol lookups use the loaded handle; if only the
second loads, both candidates were attempted in order and lookups use the
second handle; if every candidate fails to load, symbol lookup proceeds
against the RTLD_DEFAULT scope instead, and construction still succeeds
when both symbols resolve there. -/
theorem resolver_order (env : Env)
    (h0 : env.enumStatus = 0) (h1 : display_count env ≠ 0) :
    (∀ h : Nat, env.dlopenRes dsPath = some h →
      dlopenPaths (BrightnessController.new env).2 = [dsPath] ∧
      dlsymScopes (BrightnessController.new env).2 = [some h, some h]) ∧
    (env.dlopenRes dsPath = none → ∀ h : Nat, env.dlopenRes slPath = some h →
      dlopenPaths (BrightnessController.new env).2 = [dsPath, slPath] ∧
      dlsymScopes (BrightnessController.new env).2 = [some h, some h]) ∧
    (env.dlopenRes dsPath = none → env.dlopenRes slPath = none →
      dlopenPaths (BrightnessController.new env).2 = [dsPath, slPath] ∧
      dlsymScopes (BrightnessController.new env).2 = [none, none] ∧
      (env.dlsymOk none get_brightness_name = true →
       env.dlsymOk none set_brightness_name = true →
       exceptIsOk (BrightnessController.new env).1 = true)) := by
  refine ⟨?_, ?_, ?_⟩
  · intro h hds
    rw [BrightnessController.new]
    simp only [h0, ne_eq, not_true_eq_false, if_false]
    rw [if_neg (by omega)]
    simp only [framework_paths, tryLoad, hds]
    constructor
    · split <;> simp [dlopenPaths, dlsymScopes, searchScope]
    · split <;> simp [dlopenPaths, dlsymScopes, searchScope]
  · intro hds h hsl
    rw [BrightnessController.new]
    simp only [h0, ne_eq, not_true_eq_false, if_false]
    rw [if_neg (by omega)]
    simp only [framework_paths, tryLoad, hds, hsl]
    constructor
    · split <;> simp [dlopenPaths, dlsymScopes, searchScope]
    · split <;> simp [dlopenPaths, dlsymScopes, searchScope]
  · intro hds hsl
    rw [BrightnessController.new]
    simp only [h0, ne_eq, not_true_eq_false, if_false]
    rw [if_neg (by omega)]
    simp only [framework_paths, tryLoad, hds, hsl]
    refine ⟨?_, ?_, ?_⟩
    · split <;> simp [dlopenPaths, dlsymScopes, searchScope]
    · split <;> simp [dlopenPaths, dlsymScopes, searchScope]
    · intro hg hs
      simp only [searchScope, hg, hs]
      simp [exceptIsOk]

theorem resolver_order_witness :
    (dlopenPaths (BrightnessController.new envOk).2 = [dsPath] ∧
     dlsymScopes (BrightnessController.new envOk).2 = [some 7, some 7]) ∧
    (dlopenPaths (BrightnessController.new envSecondLoads).2 = [dsPath, slPath] ∧
     dlsymScopes (BrightnessController.new envSecondLoads).2 = [some 9, some 9]) ∧
    (dlopenPaths (BrightnessController.new envFallback).2 = [dsPath, slPath] ∧
     dlsymScopes (BrightnessController.new envFallback).2 = [none, none] ∧
     exceptIsOk (BrightnessController.new envFallback).1 = true) := by
  refine ⟨(resolver_order envOk rfl (by decide)).1 7 rfl,
    (resolver_order envSecondLoads rfl (by decide)).2.1 ?_ 9 ?_,
    ⟨((resolver_order envFallback rfl (by decide)).2.2 rfl rfl).1,
     ((resolver_order envFallback rfl (by decide)).2.2 rfl rfl).2.1,
     ((resolver_order envFallback rfl (by decide)).2.2 rfl rfl).2.2 rfl rfl⟩⟩
  · simp [envSecondLoads, envOk, dsPath, slPath]
  · simp [envSecondLoads, envOk, slPath]

/-- Every event recorded by the load loop is a dlopen call. -/
theorem tryLoad_events (env : Env) (paths : List String) :
    ∀ e ∈ (tryLoad env paths).2, ∃ p, e = Event.dlopenCall p := by
  induction paths with
  | nil => simp [tryLoad]
  | cons p rest ih =>
    simp only [tryLoad]
    cases hr : env.dlopenRes p with
    | some h =>
      intro e he
      simp at he
      exact ⟨p, he⟩
    | none =>
      intro e he
      simp only [List.mem_cons] at he
      rcases he with he | he
      · exact ⟨p, he⟩
      · exact ih e he

/-- A dlclose event never occurs in the load loop's trace. -/
theorem tryLoad_no_dlclose (env : Env) (paths : List String) (h : Nat) :
    Event.dlcloseCall h ∉ (tryLoad env paths).2 := by
  intro hmem
  rcases tryLoad_events env paths _ hmem with ⟨p, hp⟩
  cases hp

/-- Counting an element appended once to a list not containing it. -/
theorem count_append_singleton_of_notMem {α : Type} [BEq α] [LawfulBEq α]
    (l : List α) (a : α) (h : a ∉ l) : (l ++ [a]).count a = 1 := by
  rw [List.count_append, List.count_eq_zero.mpr h]
  simp

/-- An environment in which the first path loads as handle 7 but neither
symbol resolves anywhere. -/
def envNoSymbols : Env :=
  { envOk with dlsymOk := fun _ _ => false }

/-- An environment in which nothing loads and no symbol resolves. -/
def envNothing : Env :=
  { envOk with dlopenRes := fun _ => none, dlsymOk := fun _ _ => false }

/-- C4: if the getter or the setter symbol fails to resolve in the chosen
scope, construction fails as a whole with the symbols-unavailable error
(no controller value); when a library handle had been opened, exactly one
dlclose on that handle appears in the trace before returning; when no
handle was opened, no dlclose is issued at all. -/
theorem symbols_unavailable (env : Env)
    (h0 : env.enumStatus = 0) (h1 : display_count env ≠ 0)
    (hsym : env.dlsymOk (searchScope (tryLoad env framework_paths).1)
        get_brightness_name = false ∨
      env.dlsymOk (searchScope (tryLoad env framework_paths).1)
        set_brightness_name = false) :
    (BrightnessController.new env).1 =
      Except.error "DisplayServices functions not available on this system." ∧
    (∀ h : Nat, (tryLoad env framework_paths).1 = some h →
      (BrightnessController.new env).2.count (Event.dlcloseCall h) = 1) ∧
    ((tryLoad env framework_paths).1 = none →
      ∀ h : Nat, Event.dlcloseCall h ∉ (BrightnessController.new env).2) := by
  rw [BrightnessController.new]
  simp only [h0, ne_eq, not_true_eq_false, if_false]
  rw [if_neg (by omega)]
  set load := tryLoad env framework_paths with hload
  have hb : (!env.dlsymOk (searchScope load.1) get_brightness_name ||
      !env.dlsymOk (searchScope load.1) set_brightness_name) = true := by
    rcases hsym with h | h <;> simp [h]
  rw [if_pos hb]
  have hnc : ∀ g : Nat, Event.dlcloseCall g ∉
      (Event.enumCall :: load.2 ++
        [Event.dlsymCall (searchScope load.1) get_brightness_name,
         Event.dlsymCall (searchScope load.1) set_brightness_name]) := by
    intro g hmem
    simp only [List.cons_append, List.mem_cons, List.mem_append,
      List.mem_singleton, List.not_mem_nil, or_false] at hmem
    rcases hmem with hmem | hmem | hmem | hmem
    · cases hmem
    · exact tryLoad_no_dlclose env framework_paths g (hload ▸ hmem)
    · cases hmem
    · cases hmem
  cases hh : load.1 with
  | some h =>
    rw [hh] at hnc
    refine ⟨rfl, ?_, ?_⟩
    · intro g hg
      cases hg
      exact count_append_singleton_of_notMem _ _ (hnc h)
    · intro hcontra
      cases hcontra
  | none =>
    rw [hh] at hnc
    refine ⟨rfl, ?_, ?_⟩
    · intro g hg
      cases hg
    · intro _ g
      exact hnc g

theorem symbols_unavailable_witness :
    ((BrightnessController.new envNoSymbols).1 =
       Except.error "DisplayServices functions not available on this system." ∧
     (BrightnessController.new envNoSymbols).2.count (Event.dlcloseCall 7) = 1) ∧
    ((BrightnessController.new envNothing).1 =
       Except.error "DisplayServices functions not available on this system." ∧
     Event.dlcloseCall 3 ∉ (BrightnessController.new envNothing).2) :=
  ⟨⟨(symbols_unavailable envNoSymbols rfl (by decide) (Or.inl rfl)).1,
    (symbols_unavailable envNoSymbols rfl (by decide) (Or.inl rfl)).2.1 7 rfl⟩,
   ⟨(symbols_unavailable envNothing rfl (by decide) (Or.inl rfl)).1,
    (symbols_unavailable envNothing rfl (by decide) (Or.inl rfl)).2.2 rfl 3⟩⟩

/-- C8 counterexample: with percentage 5.0 (outside 10–100) the CLI layer
does construct the BrightnessController before validating — the
constructor call appears in the trace, contradicting the claim that no
constructor call is made for such inputs; and when construction fails
(enumeration error), the reported error for the same out-of-range input
is the construction error, not the validation rejection, showing the
validation runs only after construction. -/
theorem brightness_cli_constructs_first_counterexample :
    CliEvent.constructorCall ∈ (handle_brightness envOk (some (F32.val 5))).2 ∧
    (handle_brightness envOk (some (F32.val 5))).1 =
      Except.error "Brightness must be between 10 and 100" ∧
    (handle_brightness envEnumFail (some (F32.val 5))).1 =
      Except.error "Failed to get active displays" := by
  refine ⟨?_, rfl, rfl⟩
  rw [show (handle_brightness envOk (some (F32.val 5))).2 =
    [CliEvent.constructorCall] from rfl]
  exact List.mem_singleton.mpr rfl

/-- C8 amended: in the CLI brightness command, a present percentage that
is zero or outside 10–100 inclusive is rejected by the calling layer's
validation after the BrightnessController is constructed and before any
setter call: when construction succeeds, such inputs yield the CLI
rejection error and the event trace is exactly the constructor call (so
no foreign setter call is made). -/
theorem brightness_cli_validates_after_construction (env : Env) (pct : F32)
    (hok : exceptIsOk (BrightnessController.new env).1 = true)
    (hbad : F32.feq pct (F32.val 0) = true ∨
      F32.flt pct (F32.val 10) = true ∨ F32.fgt pct (F32.val 100) = true) :
    ((handle_brightness env (some pct)).1 =
        Except.error "Brightness cannot be 0" ∨
      (handle_brightness env (some pct)).1 =
        Except.error "Brightness must be between 10 and 100") ∧
    (handle_brightness env (some pct)).2 = [CliEvent.constructorCall] := by
  cases hnew : (BrightnessController.new env).1 with
  | error e => rw [hnew] at hok; cases hok
  | ok c =>
    rw [handle_brightness, hnew]
    by_cases hz : F32.feq pct (F32.val 0) = true
    · simp [hz]
    · have hr : (F32.flt pct (F32.val 10) || F32.fgt pct (F32.val 100)) = true := by
        rcases hbad with h | h | h
        · exact absurd h hz
        · simp [h]
        · simp [h]
      simp [hz, hr]

theorem brightness_cli_validates_after_construction_witness :
    ((handle_brightness envOk (some (F32.val 200))).1 =
        Except.error "Brightness cannot be 0" ∨
      (handle_brightness envOk (some (F32.val 200))).1 =
        Except.error "Brightness must be between 10 and 100") ∧
    (handle_brightness envOk (some (F32.val 200))).2 =
      [CliEvent.constructorCall] :=
  brightness_cli_validates_after_construction envOk (F32.val 200) rfl
    (Or.inr (Or.inr (by decide)))
